import Mathlib

/-!
# Verification of the lf-supabase OTP engine

Shallow embedding of the two Supabase edge functions that form the OTP
lifecycle engine of the repository:

* the issue function (`src/unnamed/part_001`): validates the request,
  checks the signup precondition against the account provider, deletes
  expired rows, counts active rows, enforces the quota of 3, generates a
  code, stores its hash with an expiry and dispatches the email;
* the verify function (`src/supabase/functions/verify-otp/index.ts`):
  looks up the latest unexpired record, compares the hash of the submitted
  code, and branches on the purpose to drive the account provider.

Timestamps are modelled as natural numbers (milliseconds); the ISO strings
of the source are totally ordered, which is all the queries use.  The
SHA-256 digest `hashString` is modelled as an arbitrary function
`hash : String → String`: the engine only ever compares digests for
equality.  Each fallible external call (Supabase query, provider call,
Resend request) is given an explicit failure flag in the environment, and
every external interaction is recorded in an event trace.
-/

namespace LfSupabase

/-- A row of the `otp_codes` table (`src/unnamed/part_000`). -/
structure OtpRecord where
  id : Nat
  email : String
  codeHash : String
  purpose : String
  expiresAt : Nat
  createdAt : Nat
deriving Repr, DecidableEq

/-- The `otp_codes` table contents. -/
abbrev Store := List OtpRecord

/-- A row of the provider's user table, as seen through `listUsers`. -/
structure User where
  id : Nat
  email : String
deriving Repr, DecidableEq

/-- External world: the provider's users plus one failure flag per
fallible external call made by the two handlers. -/
structure Env where
  users : List User
  listFails : Bool
  cleanupFails : Bool
  countFails : Bool
  insertFails : Bool
  selectFails : Bool
  createFails : Bool
  updateFails : Bool
  signInFails : Bool
  sendFails : Bool
deriving Repr, DecidableEq

/-- External interactions, in the order the handler performs them. -/
inductive Event where
  | providerList
  | providerCreate
  | providerUpdate
  | providerSignIn
  | storeDelete
  | storeCount
  | storeSelect
  | storeInsert
  | emailSend
deriving Repr, DecidableEq

/-- The `eq("email", email).eq("purpose", purpose)` filter shared by every
query of both handlers. -/
def pairMatch (email purpose : String) (r : OtpRecord) : Bool :=
  r.email == email && r.purpose == purpose

/-- `delete().eq(email).eq(purpose).lt("expires_at", now)` — the cleanup
query of the issue handler (part_001, lines 109–114). -/
def deleteExpired (s : Store) (email purpose : String) (now : Nat) : Store :=
  s.filter (fun r => !(pairMatch email purpose r && decide (r.expiresAt < now)))

/-- `select("id").eq(email).eq(purpose).gte("expires_at", now)` — the
active-count query of the issue handler (part_001, lines 124–129).
Note the NON-strict `gte`. -/
def countActive (s : Store) (email purpose : String) (now : Nat) : Nat :=
  (s.filter (fun r => pairMatch email purpose r && decide (now ≤ r.expiresAt))).length

/-- The records the verify handler's lookup draws from:
`eq(email).eq(purpose).gt("expires_at", now)` (verify-otp, lines 37–45).
Note the STRICT `gt`. -/
def activeRecords (s : Store) (email purpose : String) (now : Nat) : List OtpRecord :=
  s.filter (fun r => pairMatch email purpose r && decide (now < r.expiresAt))

/-- One step of `order("expires_at", desc).limit(1)`: keep the record with
the later expiry (the earlier one on ties). -/
def pickLater (acc : Option OtpRecord) (r : OtpRecord) : Option OtpRecord :=
  match acc with
  | none => some r
  | some m => if m.expiresAt < r.expiresAt then some r else some m

/-- `order("expires_at", desc).limit(1).single()` over `activeRecords`:
the active record with the greatest `expiresAt`, or none (in which case
`.single()` yields `selectError`). -/
def findLatestActive (s : Store) (email purpose : String) (now : Nat) : Option OtpRecord :=
  (activeRecords s email purpose now).foldl pickLater none

/-- `delete().eq("email", email).eq("purpose", purpose)` — the unfiltered
pair delete used by the verify handler (lines 49, 91, 111). -/
def deleteAll (s : Store) (email purpose : String) : Store :=
  s.filter (fun r => !pairMatch email purpose r)

/-- `listUsers({filter: email=eq.${email}})`. -/
def listUsersFor (env : Env) (email : String) : List User :=
  env.users.filter (fun u => u.email == email)

/-- Outcomes of the issue handler, one per `return` site (part_001). -/
inductive IssueResult where
  | validationError
  | alreadyExists
  | storageError
  | rateLimited
  | deliveryError
  | sent
deriving Repr, DecidableEq

/-- The issue handler (`src/unnamed/part_001`, lines 80–174), from the
request body `{email, purpose}`.  `rand` stands for the value
`Math.random() * 9000` rounded down, so the generated code is
`1000 + rand % 9000`; `ttl` is `OTP_EXPIRATION_TIME` in minutes; `nextId`
is the next value of the `BIGSERIAL` id column. -/
def issue (hash : String → String) (env : Env) (s : Store)
    (email purpose : String) (now rand ttl nextId : Nat) :
    IssueResult × Store × List Event :=
  if email = "" ∨ purpose = "" then
    (.validationError, s, [])
  else
    let ev0 : List Event := if purpose = "signup" then [.providerList] else []
    if purpose = "signup" ∧ env.listFails = false ∧ (listUsersFor env email).length > 0 then
      (.alreadyExists, s, ev0)
    else
      let s1 := if env.cleanupFails then s else deleteExpired s email purpose now
      let ev1 := ev0 ++ [Event.storeDelete]
      if env.countFails then
        (.storageError, s1, ev1 ++ [Event.storeCount])
      else
        let ev2 := ev1 ++ [Event.storeCount]
        if 3 ≤ countActive s1 email purpose now then
          (.rateLimited, s1, ev2)
        else
          let code := toString (1000 + rand % 9000)
          let record : OtpRecord :=
            { id := nextId, email := email, codeHash := hash code, purpose := purpose
              expiresAt := now + ttl * 60 * 1000, createdAt := now }
          if env.insertFails then
            (.storageError, s1, ev2 ++ [Event.storeInsert])
          else
            let s2 := s1 ++ [record]
            let ev3 := ev2 ++ [Event.storeInsert]
            if env.sendFails then
              (.deliveryError, s2, ev3 ++ [Event.emailSend])
            else
              (.sent, s2, ev3 ++ [Event.emailSend])

/-- Outcomes of the verify handler, one per `return` site
(`src/supabase/functions/verify-otp/index.ts`). -/
inductive VerifyResult where
  | validationError
  | invalidOrExpired
  | invalidCode
  | providerError
  | notFound
  | invalidPurpose
  | success
deriving Repr, DecidableEq

/-- The verify handler (`src/supabase/functions/verify-otp/index.ts`,
lines 22–123), from the request body `{email, purpose, code, password}`. -/
def verify (hash : String → String) (env : Env) (s : Store)
    (email purpose code password : String) (now : Nat) :
    VerifyResult × Store × List Event :=
  if email = "" ∨ purpose = "" ∨ code = "" ∨ password = "" then
    (.validationError, s, [])
  else
    let lookup : Option OtpRecord :=
      if env.selectFails then none else findLatestActive s email purpose now
    match lookup with
    | none =>
        (.invalidOrExpired, deleteAll s email purpose, [.storeSelect, .storeDelete])
    | some r =>
        if hash code = r.codeHash then
          if purpose = "signup" then
            if env.createFails then
              (.providerError, s, [.storeSelect, .providerCreate])
            else if env.signInFails then
              (.providerError, s, [.storeSelect, .providerCreate, .providerSignIn])
            else
              (.success, s, [.storeSelect, .providerCreate, .providerSignIn])
          else if purpose = "reset" then
            if env.listFails ∨ (listUsersFor env email).length = 0 then
              (.notFound, deleteAll s email purpose,
                [.storeSelect, .providerList, .storeDelete])
            else if env.updateFails then
              (.providerError, s, [.storeSelect, .providerList, .providerUpdate])
            else if env.signInFails then
              (.providerError, s,
                [.storeSelect, .providerList, .providerUpdate, .providerSignIn])
            else
              (.success, deleteAll s email purpose,
                [.storeSelect, .providerList, .providerUpdate, .providerSignIn,
                  .storeDelete])
          else
            (.invalidPurpose, s, [.storeSelect])
        else
          (.invalidCode, s, [.storeSelect])

/-! ## Supporting lemmas about the store queries -/

/-- Cleanup deletes only rows with `expiresAt < now`, which the `gte` count
never counts, so the active count is unchanged by cleanup. -/
theorem countActive_deleteExpired (s : Store) (e p : String) (now : Nat) :
    countActive (deleteExpired s e p now) e p now = countActive s e p now := by
  unfold countActive deleteExpired
  rw [List.filter_filter]
  congr 1
  apply List.filter_congr
  intro r _
  by_cases hp : pairMatch e p r = true
  · by_cases hle : now ≤ r.expiresAt
    · simp [hp, hle, Nat.not_lt.mpr hle]
    · simp [hp, hle]
  · simp [hp]

/-- Every strictly active record is counted by the `gte` count. -/
theorem length_activeRecords_le_countActive (s : Store) (e p : String) (now : Nat) :
    (activeRecords s e p now).length ≤ countActive s e p now := by
  unfold activeRecords countActive
  induction s with
  | nil => exact Nat.le_refl _
  | cons r t ih =>
    simp only [List.filter_cons]
    by_cases hp : pairMatch e p r = true
    · by_cases hlt : now < r.expiresAt
      · have h1 : (pairMatch e p r && decide (now < r.expiresAt)) = true := by simp [hp, hlt]
        have h2 : (pairMatch e p r && decide (now ≤ r.expiresAt)) = true := by
          simp [hp, Nat.le_of_lt hlt]
        rw [if_pos h1, if_pos h2]
        simp only [List.length_cons]
        omega
      · have h1 : ¬((pairMatch e p r && decide (now < r.expiresAt)) = true) := by
          simp [hp, hlt]
        rw [if_neg h1]
        by_cases hle : now ≤ r.expiresAt
        · have h2 : (pairMatch e p r && decide (now ≤ r.expiresAt)) = true := by
            simp [hp, hle]
          rw [if_pos h2]
          simp only [List.length_cons]
          omega
        · have h2 : ¬((pairMatch e p r && decide (now ≤ r.expiresAt)) = true) := by
            simp [hp, hle]
          rw [if_neg h2]
          exact ih
    · have h1 : ¬((pairMatch e p r && decide (now < r.expiresAt)) = true) := by simp [hp]
      have h2 : ¬((pairMatch e p r && decide (now ≤ r.expiresAt)) = true) := by simp [hp]
      rw [if_neg h1, if_neg h2]
      exact ih

/-- The fold of `pickLater` only ever returns the accumulator or a list
element. -/
theorem foldl_pickLater_mem (l : List OtpRecord) (acc : Option OtpRecord) (r : OtpRecord)
    (h : l.foldl pickLater acc = some r) : r ∈ l ∨ acc = some r := by
  induction l generalizing acc with
  | nil => exact Or.inr h
  | cons a t ih =>
    rcases ih (pickLater acc a) (by simpa using h) with hm | hacc
    · exact Or.inl (List.mem_cons_of_mem a hm)
    · cases acc with
      | none =>
          have ha : a = r := by simpa [pickLater] using hacc
          exact Or.inl (by rw [← ha]; exact List.mem_cons_self a t)
      | some m =>
          by_cases hlt : m.expiresAt < a.expiresAt
          · have ha : a = r := by simpa [pickLater, hlt] using hacc
            exact Or.inl (by rw [← ha]; exact List.mem_cons_self a t)
          · have hm : m = r := by simpa [pickLater, hlt] using hacc
            exact Or.inr (by rw [hm])

/-- The record returned by `findLatestActive` is one of the pair's strictly
active records. -/
theorem findLatestActive_mem (s : Store) (e p : String) (now : Nat) (r : OtpRecord)
    (h : findLatestActive s e p now = some r) : r ∈ activeRecords s e p now := by
  rcases foldl_pickLater_mem _ _ _ h with hm | hacc
  · exact hm
  · exact absurd hacc (by simp)

/-- Membership in `activeRecords` spelled out. -/
theorem mem_activeRecords_iff (s : Store) (e p : String) (now : Nat) (r : OtpRecord) :
    r ∈ activeRecords s e p now ↔ r ∈ s ∧ pairMatch e p r = true ∧ now < r.expiresAt := by
  unfold activeRecords
  simp [List.mem_filter, and_assoc]

/-- If every record of the pair is expired, the verifier's lookup finds
nothing. -/
theorem findLatestActive_eq_none_of_all_expired (s : Store) (e p : String) (now : Nat)
    (h : ∀ r ∈ s, pairMatch e p r = true → r.expiresAt ≤ now) :
    findLatestActive s e p now = none := by
  have hempty : activeRecords s e p now = [] := by
    unfold activeRecords
    rw [List.filter_eq_nil_iff]
    intro r hr
    by_cases hp : pairMatch e p r = true
    · simp [hp, Nat.not_lt.mpr (h r hr hp)]
    · simp [hp]
  unfold findLatestActive
  rw [hempty]
  rfl

/-- `deleteAll` leaves no record of the pair at all. -/
theorem filter_pair_deleteAll (s : Store) (e p : String) :
    (deleteAll s e p).filter (fun r => pairMatch e p r) = [] := by
  unfold deleteAll
  rw [List.filter_eq_nil_iff]
  intro r hr
  rcases List.mem_filter.mp hr with ⟨_, hkeep⟩
  simp at hkeep
  simp [hkeep]

/-- In particular no active record of the pair survives `deleteAll`. -/
theorem countActive_deleteAll (s : Store) (e p : String) (now : Nat) :
    countActive (deleteAll s e p) e p now = 0 := by
  unfold countActive deleteAll
  rw [List.length_eq_zero, List.filter_eq_nil_iff]
  intro r hr
  rcases List.mem_filter.mp hr with ⟨_, hkeep⟩
  simp at hkeep
  simp [hkeep]

/-- The `gte` count splits into the strictly active records and the records
expiring exactly at the evaluation instant. -/
theorem countActive_decomp (s : Store) (e p : String) (now : Nat) :
    countActive s e p now =
      (activeRecords s e p now).length +
        (s.filter (fun x => pairMatch e p x && decide (x.expiresAt = now))).length := by
  unfold countActive activeRecords
  induction s with
  | nil => rfl
  | cons r t ih =>
    simp only [List.filter_cons]
    by_cases hp : pairMatch e p r = true
    · by_cases hlt : now < r.expiresAt
      · have h1 : (pairMatch e p r && decide (now ≤ r.expiresAt)) = true := by
          simp [hp, Nat.le_of_lt hlt]
        have h2 : (pairMatch e p r && decide (now < r.expiresAt)) = true := by simp [hp, hlt]
        have h3 : ¬((pairMatch e p r && decide (r.expiresAt = now)) = true) := by
          simp [hp]
          omega
        rw [if_pos h1, if_pos h2, if_neg h3]
        simp only [List.length_cons]
        omega
      · by_cases heq : r.expiresAt = now
        · have h1 : (pairMatch e p r && decide (now ≤ r.expiresAt)) = true := by
            simp [hp]
            omega
          have h2 : ¬((pairMatch e p r && decide (now < r.expiresAt)) = true) := by
            simp [hp, hlt]
          have h3 : (pairMatch e p r && decide (r.expiresAt = now)) = true := by
            simp [hp, heq]
          rw [if_pos h1, if_neg h2, if_pos h3]
          simp only [List.length_cons]
          omega
        · have h1 : ¬((pairMatch e p r && decide (now ≤ r.expiresAt)) = true) := by
            simp [hp]
            omega
          have h2 : ¬((pairMatch e p r && decide (now < r.expiresAt)) = true) := by
            simp [hp, hlt]
          have h3 : ¬((pairMatch e p r && decide (r.expiresAt = now)) = true) := by
            simp [hp, heq]
          rw [if_neg h1, if_neg h2, if_neg h3]
          exact ih
    · have h1 : ¬((pairMatch e p r && decide (now ≤ r.expiresAt)) = true) := by simp [hp]
      have h2 : ¬((pairMatch e p r && decide (now < r.expiresAt)) = true) := by simp [hp]
      have h3 : ¬((pairMatch e p r && decide (r.expiresAt = now)) = true) := by simp [hp]
      rw [if_neg h1, if_neg h2, if_neg h3]
      exact ih

/-! ## Concrete fixtures used by witnesses -/

/-- Concrete digest function standing in for SHA-256 in witnesses. -/
def hashW : String → String := fun c => c ++ "#"

/-- Environment with no registered users and every external call
succeeding. -/
def envOK : Env :=
  { users := [], listFails := false, cleanupFails := false, countFails := false
    insertFails := false, selectFails := false, createFails := false
    updateFails := false, signInFails := false, sendFails := false }

/-- Environment with one registered user for `a@x.com`. -/
def envUser : Env := { envOK with users := [{ id := 9, email := "a@x.com" }] }

/-- An active reset record for `a@x.com` (expiry 100). -/
def recW (i : Nat) : OtpRecord :=
  { id := i, email := "a@x.com", codeHash := hashW "1234", purpose := "reset"
    expiresAt := 100, createdAt := 0 }

/-- Three active reset records for the same pair. -/
def storeW3 : Store := [recW 1, recW 2, recW 3]

/-! ## Claims -/

/-- C1: if at evaluation time at least 3 records of the (email, purpose)
pair are active (expiry strictly in the future), `issue` fails with
`RateLimited` and the store keeps exactly the prior records minus the
expired rows removed by cleanup — nothing is inserted.  Hypotheses scope
the run to the rate-limit check: the request is well-formed, the signup
AlreadyExists guard does not fire, and the count query itself succeeds. -/
theorem issue_rateLimited_of_three_active
    (hash : String → String) (env : Env) (s : Store)
    (email purpose : String) (now rand ttl nextId : Nat)
    (hemail : email ≠ "") (hpurpose : purpose ≠ "")
    (hpre : purpose = "signup" → env.listFails = true ∨ listUsersFor env email = [])
    (hcount : env.countFails = false)
    (hactive : 3 ≤ (activeRecords s email purpose now).length) :
    (issue hash env s email purpose now rand ttl nextId).1 = IssueResult.rateLimited ∧
    (issue hash env s email purpose now rand ttl nextId).2.1 =
      (if env.cleanupFails then s else deleteExpired s email purpose now) := by
  have hv : ¬(email = "" ∨ purpose = "") := by
    rintro (h | h)
    · exact hemail h
    · exact hpurpose h
  have hg : ¬(purpose = "signup" ∧ env.listFails = false ∧
      (listUsersFor env email).length > 0) := by
    rintro ⟨h1, h2, h3⟩
    rcases hpre h1 with hl | hl
    · rw [hl] at h2
      exact absurd h2 (by simp)
    · rw [hl] at h3
      exact absurd h3 (by simp)
  have hcf : ¬(env.countFails = true) := by simp [hcount]
  have hc : 3 ≤ countActive (if env.cleanupFails then s else deleteExpired s email purpose now)
      email purpose now := by
    have h1 := length_activeRecords_le_countActive s email purpose now
    by_cases hclean : env.cleanupFails
    · rw [if_pos hclean]
      omega
    · rw [if_neg hclean, countActive_deleteExpired]
      omega
  constructor <;>
    simp only [issue, if_neg hv, if_neg hg, if_neg hcf, if_pos hc, Bool.if_false_left]

/-- C1 witness: three active reset records for `a@x.com` at time 5 make a
fourth `issue` fail with `RateLimited`, leaving the store unchanged
(nothing was expired at time 5). -/
theorem issue_rateLimited_of_three_active_witness :
    (issue hashW envOK storeW3 "a@x.com" "reset" 5 0 10 4).1 = IssueResult.rateLimited ∧
    (issue hashW envOK storeW3 "a@x.com" "reset" 5 0 10 4).2.1 =
      (if envOK.cleanupFails then storeW3 else deleteExpired storeW3 "a@x.com" "reset" 5) :=
  issue_rateLimited_of_three_active hashW envOK storeW3 "a@x.com" "reset" 5 0 10 4
    (by decide) (by decide) (by intro h; exact absurd h (by decide)) (by rfl) (by decide)

/-- C5 counterexample: a record expiring exactly at the evaluation instant
is counted by the issue handler's `gte` count but is invisible to the
verify handler's strict `gt` lookup, so the two operations do not use one
shared definition of "active". -/
theorem activeDefinition_counterexample :
    countActive [recW 1] "a@x.com" "reset" 100 = 1 ∧
    activeRecords [recW 1] "a@x.com" "reset" 100 = [] ∧
    findLatestActive [recW 1] "a@x.com" "reset" 100 = none := by
  refine ⟨by decide, by decide, ?_⟩
  rw [findLatestActive, (by decide : activeRecords [recW 1] "a@x.com" "reset" 100 = [])]
  rfl

/-- C5 amended: the verifier's `findLatestActive` draws exactly from the
records with `expiresAt` strictly in the future, while the issuer's
`countActive` uses the non-strict comparison: it counts the strictly
active records plus those expiring exactly at the evaluation instant. -/
theorem activeDefinition_amended
    (s : Store) (e p : String) (now : Nat) (r : OtpRecord)
    (h : findLatestActive s e p now = some r) :
    countActive s e p now =
      (activeRecords s e p now).length +
        (s.filter (fun x => pairMatch e p x && decide (x.expiresAt = now))).length ∧
    pairMatch e p r = true ∧ now < r.expiresAt := by
  have hm := (mem_activeRecords_iff s e p now r).mp (findLatestActive_mem s e p now r h)
  exact ⟨countActive_decomp s e p now, hm.2.1, hm.2.2⟩

/-- C5 amended witness: with one record expiring at 100 and one at 50, the
lookup at time 5 returns the record expiring at 100, which is strictly
active, and the count decomposes as stated. -/
theorem activeDefinition_amended_witness :
    countActive [recW 1] "a@x.com" "reset" 5 =
      (activeRecords [recW 1] "a@x.com" "reset" 5).length +
        (([recW 1] : Store).filter
          (fun x => pairMatch "a@x.com" "reset" x && decide (x.expiresAt = 5))).length ∧
    pairMatch "a@x.com" "reset" (recW 1) = true ∧ 5 < (recW 1).expiresAt :=
  activeDefinition_amended [recW 1] "a@x.com" "reset" 5 (recW 1) (by decide)

/-- C2: with every external call succeeding and an account registered for
the email, `verify` succeeds iff the hash of the submitted code equals the
`codeHash` of the most-recent active record for the pair and the purpose
is signup or reset. -/
theorem verify_success_iff
    (hash : String → String) (env : Env) (s : Store)
    (email purpose code password : String) (now : Nat)
    (hemail : email ≠ "") (hpurpose : purpose ≠ "")
    (hcode : code ≠ "") (hpw : password ≠ "")
    (hsel : env.selectFails = false) (hlist : env.listFails = false)
    (hcreate : env.createFails = false) (hupdate : env.updateFails = false)
    (hsignin : env.signInFails = false)
    (huser : listUsersFor env email ≠ []) :
    (verify hash env s email purpose code password now).1 = VerifyResult.success ↔
      ((∃ r, findLatestActive s email purpose now = some r ∧ hash code = r.codeHash) ∧
        (purpose = "signup" ∨ purpose = "reset")) := by
  have hv : ¬(email = "" ∨ purpose = "" ∨ code = "" ∨ password = "") := by
    simp [hemail, hpurpose, hcode, hpw]
  cases hfl : findLatestActive s email purpose now with
  | none => simp [verify, hv, hsel, hfl]
  | some r =>
    by_cases hh : hash code = r.codeHash
    · by_cases hsgn : purpose = "signup"
      · subst hsgn
        simp [verify, hemail, hcode, hpw, hsel, hfl, hh, hcreate, hsignin]
      · by_cases hrst : purpose = "reset"
        · have hlen : (listUsersFor env email).length ≠ 0 := by
            simpa [List.length_eq_zero] using huser
          subst hrst
          simp [verify, hemail, hcode, hpw, hsel, hfl, hh, hlist, hupdate, hsignin, hlen]
        · simp [verify, hv, hsel, hfl, hh, hsgn, hrst]
    · simp [verify, hv, hsel, hfl, hh]

/-- C2 witness: a reset verification with the matching code against the
single active record and a registered user succeeds, as the iff demands. -/
theorem verify_success_iff_witness :
    (verify hashW envUser [recW 1] "a@x.com" "reset" "1234" "pw" 5).1
        = VerifyResult.success ↔
      ((∃ r, findLatestActive [recW 1] "a@x.com" "reset" 5 = some r ∧
          hashW "1234" = r.codeHash) ∧
        (("reset" : String) = "signup" ∨ ("reset" : String) = "reset")) :=
  verify_success_iff hashW envUser [recW 1] "a@x.com" "reset" "1234" "pw" 5
    (by decide) (by decide) (by decide) (by decide) (by rfl) (by rfl) (by rfl) (by rfl)
    (by rfl) (by decide)

/-- C3 counterexample: with no record for the pair, a verify call with an
unknown purpose fails with `InvalidOrExpired` — not `InvalidPurpose` — and
it does interact with the Store: the lookup ran and the pair was deleted. -/
theorem verify_invalidPurpose_counterexample :
    (verify hashW envOK [] "a@x.com" "bogus" "1234" "pw" 5).1
        = VerifyResult.invalidOrExpired ∧
    (verify hashW envOK [] "a@x.com" "bogus" "1234" "pw" 5).1
        ≠ VerifyResult.invalidPurpose ∧
    Event.storeSelect ∈ (verify hashW envOK [] "a@x.com" "bogus" "1234" "pw" 5).2.2 ∧
    Event.storeDelete ∈ (verify hashW envOK [] "a@x.com" "bogus" "1234" "pw" 5).2.2 := by
  decide

/-- C3 amended: for a purpose outside {signup, reset} `verify` never
succeeds and never touches the Account Provider, but the Store lookup
always runs first: with no active record it fails `InvalidOrExpired`
after a pair-wide delete, and `InvalidPurpose` is reached only when an
active record's hash matches, leaving the store unchanged. -/
theorem verify_otherPurpose_amended
    (hash : String → String) (env : Env) (s : Store)
    (email purpose code password : String) (now : Nat)
    (hemail : email ≠ "") (hpurpose : purpose ≠ "")
    (hcode : code ≠ "") (hpw : password ≠ "")
    (hsel : env.selectFails = false)
    (hsgn : purpose ≠ "signup") (hrst : purpose ≠ "reset") :
    (verify hash env s email purpose code password now).1 ≠ VerifyResult.success ∧
    Event.storeSelect ∈ (verify hash env s email purpose code password now).2.2 ∧
    Event.providerList ∉ (verify hash env s email purpose code password now).2.2 ∧
    Event.providerCreate ∉ (verify hash env s email purpose code password now).2.2 ∧
    Event.providerUpdate ∉ (verify hash env s email purpose code password now).2.2 ∧
    Event.providerSignIn ∉ (verify hash env s email purpose code password now).2.2 ∧
    (∀ r, findLatestActive s email purpose now = some r → hash code = r.codeHash →
      (verify hash env s email purpose code password now).1 = VerifyResult.invalidPurpose ∧
      (verify hash env s email purpose code password now).2.1 = s) := by
  have hv : ¬(email = "" ∨ purpose = "" ∨ code = "" ∨ password = "") := by
    simp [hemail, hpurpose, hcode, hpw]
  cases hfl : findLatestActive s email purpose now with
  | none => simp [verify, hv, hsel, hfl]
  | some r =>
    by_cases hh : hash code = r.codeHash
    · simp [verify, hv, hsel, hfl, hh, hsgn, hrst]
    · simp [verify, hv, hsel, hfl, hh]

/-- An active record whose purpose is the unknown string `bogus`, as the
issue handler is happy to insert (see C4). -/
def recBogus : OtpRecord :=
  { id := 5, email := "a@x.com", codeHash := hashW "1234", purpose := "bogus"
    expiresAt := 100, createdAt := 0 }

/-- C3 amended witness: against an active bogus-purpose record whose hash
matches, verify fails with `InvalidPurpose`, after the Store lookup but
with no provider interaction. -/
theorem verify_otherPurpose_amended_witness :
    (verify hashW envOK [recBogus] "a@x.com" "bogus" "1234" "pw" 5).1
        ≠ VerifyResult.success ∧
    Event.storeSelect ∈ (verify hashW envOK [recBogus] "a@x.com" "bogus" "1234" "pw" 5).2.2 ∧
    Event.providerList ∉ (verify hashW envOK [recBogus] "a@x.com" "bogus" "1234" "pw" 5).2.2 ∧
    Event.providerCreate ∉
      (verify hashW envOK [recBogus] "a@x.com" "bogus" "1234" "pw" 5).2.2 ∧
    Event.providerUpdate ∉
      (verify hashW envOK [recBogus] "a@x.com" "bogus" "1234" "pw" 5).2.2 ∧
    Event.providerSignIn ∉
      (verify hashW envOK [recBogus] "a@x.com" "bogus" "1234" "pw" 5).2.2 ∧
    (∀ r, findLatestActive [recBogus] "a@x.com" "bogus" 5 = some r →
      hashW "1234" = r.codeHash →
      (verify hashW envOK [recBogus] "a@x.com" "bogus" "1234" "pw" 5).1
          = VerifyResult.invalidPurpose ∧
      (verify hashW envOK [recBogus] "a@x.com" "bogus" "1234" "pw" 5).2.1 = [recBogus]) :=
  verify_otherPurpose_amended hashW envOK [recBogus] "a@x.com" "bogus" "1234" "pw" 5
    (by decide) (by decide) (by decide) (by decide) (by rfl) (by decide) (by decide)

/-- C4 counterexample: `issue` with the unknown purpose `bogus` does not
fail at all: it runs cleanup, the count, the insert and the email, and a
record with purpose `bogus` lands in the store. -/
theorem issue_bogus_counterexample :
    (issue hashW envOK [] "a@x.com" "bogus" 5 0 10 1).1 = IssueResult.sent ∧
    (issue hashW envOK [] "a@x.com" "bogus" 5 0 10 1).2.1 =
      [{ id := 1, email := "a@x.com", codeHash := hashW "1000", purpose := "bogus"
         expiresAt := 5 + 10 * 60 * 1000, createdAt := 5 }] ∧
    Event.storeDelete ∈ (issue hashW envOK [] "a@x.com" "bogus" 5 0 10 1).2.2 ∧
    Event.storeCount ∈ (issue hashW envOK [] "a@x.com" "bogus" 5 0 10 1).2.2 ∧
    Event.storeInsert ∈ (issue hashW envOK [] "a@x.com" "bogus" 5 0 10 1).2.2 ∧
    Event.emailSend ∈ (issue hashW envOK [] "a@x.com" "bogus" 5 0 10 1).2.2 := by
  decide

/-- C4 amended: `issue` validates only that email and purpose are
non-empty; for any purpose other than `signup` it skips the provider
check and, when the quota allows and the store calls succeed, runs the
full cleanup–count–insert–email pipeline, inserting a record carrying
that purpose and dispatching the email. -/
theorem issue_bogus_amended
    (hash : String → String) (env : Env) (s : Store)
    (email purpose : String) (now rand ttl nextId : Nat)
    (hemail : email ≠ "") (hpurpose : purpose ≠ "") (hsgn : purpose ≠ "signup")
    (hclean : env.cleanupFails = false) (hcount : env.countFails = false)
    (hins : env.insertFails = false) (hsend : env.sendFails = false)
    (hquota : countActive (deleteExpired s email purpose now) email purpose now < 3) :
    issue hash env s email purpose now rand ttl nextId =
      (IssueResult.sent,
        deleteExpired s email purpose now ++
          [{ id := nextId, email := email, codeHash := hash (toString (1000 + rand % 9000))
             purpose := purpose, expiresAt := now + ttl * 60 * 1000, createdAt := now }],
        [Event.storeDelete, Event.storeCount, Event.storeInsert, Event.emailSend]) := by
  have hv : ¬(email = "" ∨ purpose = "") := by simp [hemail, hpurpose]
  have hg : ¬(purpose = "signup" ∧ env.listFails = false ∧
      (listUsersFor env email).length > 0) := by
    rintro ⟨h1, -, -⟩
    exact hsgn h1
  have hq : ¬(3 ≤ countActive (if env.cleanupFails then s
      else deleteExpired s email purpose now) email purpose now) := by
    rw [if_neg (by simp [hclean])]
    omega
  simp [issue, hv, hg, hsgn, hclean, hcount, hins, hsend, hq, hquota]

/-- C4 amended witness: issuing with purpose `bogus` on an empty store
inserts a bogus-purpose record and sends the email. -/
theorem issue_bogus_amended_witness :
    issue hashW envOK [] "a@x.com" "bogus" 5 0 10 1 =
      (IssueResult.sent,
        deleteExpired [] "a@x.com" "bogus" 5 ++
          [{ id := 1, email := "a@x.com", codeHash := hashW (toString (1000 + 0 % 9000))
             purpose := "bogus", expiresAt := 5 + 10 * 60 * 1000, createdAt := 5 }],
        [Event.storeDelete, Event.storeCount, Event.storeInsert, Event.emailSend]) :=
  issue_bogus_amended hashW envOK [] "a@x.com" "bogus" 5 0 10 1
    (by decide) (by decide) (by decide) (by rfl) (by rfl) (by rfl) (by rfl) (by decide)

/-- C6: when every record of the pair has expired (`expiresAt ≤ now`),
`verify` fails with `InvalidOrExpired` even if the submitted code's hash
matches one of the expired records: the strict `gt` lookup never matches
an expired record. -/
theorem verify_expired_invalidOrExpired
    (hash : String → String) (env : Env) (s : Store)
    (email purpose code password : String) (now : Nat) (r : OtpRecord)
    (hemail : email ≠ "") (hpurpose : purpose ≠ "")
    (hcode : code ≠ "") (hpw : password ≠ "")
    (hsel : env.selectFails = false)
    (_hr : r ∈ s) (_hp : pairMatch email purpose r = true) (_hexp : r.expiresAt ≤ now)
    (_hhash : hash code = r.codeHash)
    (hall : ∀ x ∈ s, pairMatch email purpose x = true → x.expiresAt ≤ now) :
    (verify hash env s email purpose code password now).1
      = VerifyResult.invalidOrExpired := by
  have hv : ¬(email = "" ∨ purpose = "" ∨ code = "" ∨ password = "") := by
    simp [hemail, hpurpose, hcode, hpw]
  have hfl : findLatestActive s email purpose now = none :=
    findLatestActive_eq_none_of_all_expired s email purpose now hall
  simp [verify, hv, hsel, hfl]

/-- A reset record for `a@x.com` that expired at time 3. -/
def recExpired : OtpRecord :=
  { id := 6, email := "a@x.com", codeHash := hashW "1234", purpose := "reset"
    expiresAt := 3, createdAt := 0 }

/-- C6 witness: at time 5 the record that expired at time 3 cannot be
matched even with the correct code — the result is `InvalidOrExpired`. -/
theorem verify_expired_invalidOrExpired_witness :
    (verify hashW envUser [recExpired] "a@x.com" "reset" "1234" "pw" 5).1
      = VerifyResult.invalidOrExpired :=
  verify_expired_invalidOrExpired hashW envUser [recExpired] "a@x.com" "reset" "1234" "pw" 5
    recExpired (by decide) (by decide) (by decide) (by decide) (by rfl)
    (by decide) (by decide) (by decide) (by decide)
    (by intro x hx hpx; rcases List.mem_singleton.mp hx with h; rw [h]; decide)

/-- C7: when the lookup finds an active record but the submitted code's
hash differs from its `codeHash`, `verify` fails with `InvalidCode` and
the store is left entirely unchanged — only the read happened. -/
theorem verify_invalidCode_frame
    (hash : String → String) (env : Env) (s : Store)
    (email purpose code password : String) (now : Nat) (r : OtpRecord)
    (hemail : email ≠ "") (hpurpose : purpose ≠ "")
    (hcode : code ≠ "") (hpw : password ≠ "")
    (hsel : env.selectFails = false)
    (hfl : findLatestActive s email purpose now = some r)
    (hh : hash code ≠ r.codeHash) :
    (verify hash env s email purpose code password now).1 = VerifyResult.invalidCode ∧
    (verify hash env s email purpose code password now).2.1 = s ∧
    (verify hash env s email purpose code password now).2.2 = [Event.storeSelect] := by
  have hv : ¬(email = "" ∨ purpose = "" ∨ code = "" ∨ password = "") := by
    simp [hemail, hpurpose, hcode, hpw]
  simp [verify, hv, hsel, hfl, hh]

/-- C7 witness: a wrong code against the single active record yields
`InvalidCode` and leaves the record in place. -/
theorem verify_invalidCode_frame_witness :
    (verify hashW envUser [recW 1] "a@x.com" "reset" "9999" "pw" 5).1
        = VerifyResult.invalidCode ∧
    (verify hashW envUser [recW 1] "a@x.com" "reset" "9999" "pw" 5).2.1 = [recW 1] ∧
    (verify hashW envUser [recW 1] "a@x.com" "reset" "9999" "pw" 5).2.2
        = [Event.storeSelect] :=
  verify_invalidCode_frame hashW envUser [recW 1] "a@x.com" "reset" "9999" "pw" 5 (recW 1)
    (by decide) (by decide) (by decide) (by decide) (by rfl) (by decide) (by decide)

/-- C8: a `verify` call with purpose reset that returns success has
deleted every record of the pair: zero records — in particular zero
active records — remain. -/
theorem verify_reset_success_clears
    (hash : String → String) (env : Env) (s : Store)
    (email code password : String) (now : Nat)
    (h : (verify hash env s email "reset" code password now).1 = VerifyResult.success) :
    ((verify hash env s email "reset" code password now).2.1).filter
        (fun r => pairMatch email "reset" r) = [] ∧
    countActive (verify hash env s email "reset" code password now).2.1
        email "reset" now = 0 := by
  by_cases hval : email = "" ∨ code = "" ∨ password = ""
  · simp [verify, hval] at h
  · by_cases hsel : env.selectFails = true
    · simp [verify, hval, hsel] at h
    · cases hfl : findLatestActive s email "reset" now with
      | none => simp [verify, hval, hsel, hfl] at h
      | some r =>
        by_cases hh : hash code = r.codeHash
        · by_cases hnf : env.listFails = true ∨ listUsersFor env email = []
          · simp [verify, hval, hsel, hfl, hh, hnf] at h
          · by_cases hupd : env.updateFails = true
            · simp [verify, hval, hsel, hfl, hh, hnf, hupd] at h
            · by_cases hsi : env.signInFails = true
              · simp [verify, hval, hsel, hfl, hh, hnf, hupd, hsi] at h
              · have hst : (verify hash env s email "reset" code password now).2.1
                    = deleteAll s email "reset" := by
                  simp [verify, hval, hsel, hfl, hh, hnf, hupd, hsi]
                rw [hst]
                exact ⟨filter_pair_deleteAll s email "reset",
                  countActive_deleteAll s email "reset" now⟩
        · simp [verify, hval, hsel, hfl, hh] at h

/-- C8 witness: the successful reset verification of the single active
record leaves no record of the pair behind. -/
theorem verify_reset_success_clears_witness :
    ((verify hashW envUser [recW 1] "a@x.com" "reset" "1234" "pw" 5).2.1).filter
        (fun r => pairMatch "a@x.com" "reset" r) = [] ∧
    countActive (verify hashW envUser [recW 1] "a@x.com" "reset" "1234" "pw" 5).2.1
        "a@x.com" "reset" 5 = 0 :=
  verify_reset_success_clears hashW envUser [recW 1] "a@x.com" "1234" "pw" 5 (by decide)

/-- Environment in which the otp_codes select of the verify handler
fails. -/
def envSelFail : Env := { envUser with selectFails := true }

/-- C9 counterexample: when the Store read itself fails, verify reports
`InvalidOrExpired` — not a distinct storage error — and deletes the
pair's records, here the still-active matching record. -/
theorem verify_readFailure_counterexample :
    (verify hashW envSelFail [recW 1] "a@x.com" "reset" "1234" "pw" 5).1
        = VerifyResult.invalidOrExpired ∧
    (verify hashW envSelFail [recW 1] "a@x.com" "reset" "1234" "pw" 5).2.1 = [] ∧
    Event.storeDelete ∈
      (verify hashW envSelFail [recW 1] "a@x.com" "reset" "1234" "pw" 5).2.2 := by
  decide

/-- C9 amended: the verify handler conflates a Store read failure with
not-found: any select error yields `InvalidOrExpired` as the terminal
result, after deleting every record of the pair. -/
theorem verify_readFailure_amended
    (hash : String → String) (env : Env) (s : Store)
    (email purpose code password : String) (now : Nat)
    (hemail : email ≠ "") (hpurpose : purpose ≠ "")
    (hcode : code ≠ "") (hpw : password ≠ "")
    (hsel : env.selectFails = true) :
    (verify hash env s email purpose code password now).1
        = VerifyResult.invalidOrExpired ∧
    (verify hash env s email purpose code password now).2.1
        = deleteAll s email purpose ∧
    (verify hash env s email purpose code password now).2.2
        = [Event.storeSelect, Event.storeDelete] := by
  have hv : ¬(email = "" ∨ purpose = "" ∨ code = "" ∨ password = "") := by
    simp [hemail, hpurpose, hcode, hpw]
  simp [verify, hv, hsel]

/-- C9 amended witness: the read failure deletes the pair's single active
record and reports `InvalidOrExpired`. -/
theorem verify_readFailure_amended_witness :
    (verify hashW envSelFail [recW 1] "a@x.com" "reset" "1234" "pw" 5).1
        = VerifyResult.invalidOrExpired ∧
    (verify hashW envSelFail [recW 1] "a@x.com" "reset" "1234" "pw" 5).2.1
        = deleteAll [recW 1] "a@x.com" "reset" ∧
    (verify hashW envSelFail [recW 1] "a@x.com" "reset" "1234" "pw" 5).2.2
        = [Event.storeSelect, Event.storeDelete] :=
  verify_readFailure_amended hashW envSelFail [recW 1] "a@x.com" "reset" "1234" "pw" 5
    (by decide) (by decide) (by decide) (by decide) (by rfl)

/-- C10: when the provider's `listUsers` call in the signup precondition
fails, `issue` ignores the error and proceeds exactly as if no account
existed for the email — in particular it never returns `AlreadyExists`. -/
theorem issue_signup_listError_ignored
    (hash : String → String) (env : Env) (s : Store)
    (email : String) (now rand ttl nextId : Nat)
    (hl : env.listFails = true) :
    issue hash env s email "signup" now rand ttl nextId =
      issue hash { env with listFails := false, users := [] } s email "signup"
        now rand ttl nextId ∧
    (issue hash env s email "signup" now rand ttl nextId).1
      ≠ IssueResult.alreadyExists := by
  constructor
  · by_cases hv : email = ""
    · simp [issue, hv]
    · simp [issue, hv, hl, listUsersFor]
  · by_cases hv : email = ""
    · simp [issue, hv]
    · by_cases hcnt : env.countFails = true
      · simp [issue, hv, hl, hcnt]
      · by_cases hrl : 3 ≤ countActive (if env.cleanupFails = true then s
            else deleteExpired s email "signup" now) email "signup" now
        · simp [issue, hv, hl, hcnt, hrl]
        · by_cases hins : env.insertFails = true
          · simp [issue, hv, hl, hcnt, hrl, hins]
          · by_cases hsend : env.sendFails = true
            · simp [issue, hv, hl, hcnt, hrl, hins, hsend]
            · simp [issue, hv, hl, hcnt, hrl, hins, hsend]

/-- Environment where a user for `a@x.com` is registered but the
`listUsers` call fails. -/
def envListFail : Env := { envUser with listFails := true }

/-- C10 witness: even with a registered user, a failing `listUsers` makes
the signup issue behave as if no account existed. -/
theorem issue_signup_listError_ignored_witness :
    issue hashW envListFail [] "a@x.com" "signup" 5 0 10 1 =
      issue hashW { envListFail with listFails := false, users := [] } [] "a@x.com"
        "signup" 5 0 10 1 ∧
    (issue hashW envListFail [] "a@x.com" "signup" 5 0 10 1).1
      ≠ IssueResult.alreadyExists :=
  issue_signup_listError_ignored hashW envListFail [] "a@x.com" 5 0 10 1 (by rfl)

end LfSupabase
